import Mathlib

/-!
# Verification of the CubeScan data-scan and result-materialization core

Shallow embedding of `src/rust/cubesql/cubesql/src/compile/engine/df/scan.rs`:
the response materializer (`transform_response` / the `build_column!` macro),
the JSON row source (`JsonValueObject`), the physical plan execution policy
(`CubeScanExecutionPlan::execute`), the one-shot fetch (`load_data`), the
stream router (`CubeScanStreamRouter::poll_next` with `load_to_stream_sync`),
and the logical `WrappedSelectNode` with its `from_template` reconstruction.

Conventions of the embedding:
* Rust machine integers are modelled as `Int` with explicit range/saturation
  functions where overflow matters.
* Rust `f64` values are modelled by `F64`: an exact rational for finite
  doubles plus distinguished nan/inf points.  JSON numbers produced by
  serde_json are always finite, so `FieldValue.num` carries a rational.
  Binary-rounding of decimal literals to the nearest double is not modelled:
  no verified property inspects a parsed float beyond parse success/failure.
* Fallible Rust code returns `Except ScanError`; a Rust panic (failed
  `assert!`, out-of-bounds index, `unwrap` on `Err`) is modelled by the
  distinguished `ScanError.panicked` variant.
* Log-and-continue paths (`warn!`, `log::error!`) are modelled by their data
  effect only (the cell that is appended); the log text is dropped.
-/

/-- Error channel of the scan core.  The Rust code uses `CubeError::user`,
`DataFusionError::Execution` / `DataFusionError::Internal` and `ArrowError`;
all of them carry only a message string on the paths modelled here.
`panicked` models a Rust panic (it is not a catchable error value in Rust;
keeping it in the error channel lets the embedding stay total). -/
inductive ScanError where
  | user (msg : String)
  | execution (msg : String)
  | internal (msg : String)
  | panicked (msg : String)
deriving DecidableEq, Repr

/-- Decidable equality for `Except` results (used by concrete witness
evaluations). -/
instance {e a : Type} [DecidableEq e] [DecidableEq a] : DecidableEq (Except e a)
  | .error x, .error y =>
    if h : x = y then .isTrue (by rw [h])
    else .isFalse (by intro hh; cases hh; exact h rfl)
  | .error _, .ok _ => .isFalse (by intro h; cases h)
  | .ok _, .error _ => .isFalse (by intro h; cases h)
  | .ok x, .ok y =>
    if h : x = y then .isTrue (by rw [h])
    else .isFalse (by intro hh; cases hh; exact h rfl)

/-- serde_json `Value`: the shape of one element of the remote response
`data` array. Numbers are modelled by the exact rational value of the `f64`
that `Number::as_f64` yields (always finite). -/
inductive JValue where
  | null
  | bool (b : Bool)
  | num (q : ℚ)
  | str (s : String)
  | arr (xs : List JValue)
  | obj (fields : List (String × JValue))

/-- `FieldValue` from scan.rs: the primitive kinds a row field can take. -/
inductive FieldValue where
  | str (s : String)
  | num (q : ℚ)
  | bool (b : Bool)
  | null
deriving DecidableEq, Repr

/-- Model of a Rust `f64` result value: exact rational for finite doubles,
plus the non-finite points that `str::parse::<f64>` can produce. -/
inductive F64 where
  | fin (q : ℚ)
  | nan
  | inf (neg : Bool)
deriving DecidableEq, Repr

/-- Modelled from the spec and the usage sites in scan.rs: the DataFusion
`ScalarValue` variants that the `build_column!` literal arms pattern-match
on.  `other` stands for every remaining `ScalarValue` variant (all of them
fall into the catch-all mismatch arm of the macro).  The timestamp variants
carry the timezone component because the macro matches
`ScalarValue::TimestampNanosecond(v, None)` explicitly. -/
inductive ScalarValue where
  | utf8 (v : Option String)
  | int32 (v : Option Int)
  | int64 (v : Option Int)
  | float64 (v : Option ℚ)
  | boolean (v : Option Bool)
  | timestampNanosecond (v : Option Int) (tz : Option String)
  | timestampMillisecond (v : Option Int) (tz : Option String)
  | date32 (v : Option Int)
  | other
deriving DecidableEq, Repr

/-- `MemberField` from scan.rs. -/
inductive MemberField where
  | member (name : String)
  | literal (value : ScalarValue)
deriving DecidableEq, Repr

/-- Arrow `DataType`, restricted to the variants `transform_response`
distinguishes. `tsNano`/`tsMilli` are `Timestamp(Nanosecond, None)` and
`Timestamp(Millisecond, None)`; every other Arrow type (including timestamps
with a timezone) behaves uniformly through the final catch-all arm and is
modelled by `other` carrying its display name. -/
inductive DataType where
  | utf8
  | int32
  | int64
  | float64
  | boolean
  | tsNano
  | tsMilli
  | date32
  | other (name : String)
deriving DecidableEq, Repr

/-- The types supported by `transform_response` (everything but the final
catch-all arm). -/
def DataType.isSupported : DataType → Bool
  | .other _ => false
  | _ => true

/-- One field of an Arrow schema (name + data type; nullability is not
inspected by the scan core). -/
structure SchemaField where
  name : String
  dataType : DataType
deriving DecidableEq, Repr

/-- A typed column produced by one `build_column!` expansion: the builder
variant fixes the cell type, a `none` cell is an appended null. -/
inductive ColumnData where
  | utf8Col (cells : List (Option String))
  | int32Col (cells : List (Option Int))
  | int64Col (cells : List (Option Int))
  | float64Col (cells : List (Option F64))
  | booleanCol (cells : List (Option Bool))
  | tsNanoCol (cells : List (Option Int))
  | tsMilliCol (cells : List (Option Int))
  | date32Col (cells : List (Option Int))
deriving DecidableEq, Repr

/-- The Arrow data type of a built column. -/
def ColumnData.dataType : ColumnData → DataType
  | .utf8Col _ => .utf8
  | .int32Col _ => .int32
  | .int64Col _ => .int64
  | .float64Col _ => .float64
  | .booleanCol _ => .boolean
  | .tsNanoCol _ => .tsNano
  | .tsMilliCol _ => .tsMilli
  | .date32Col _ => .date32

/-- Number of cells in a built column. -/
def ColumnData.length : ColumnData → Nat
  | .utf8Col cells => cells.length
  | .int32Col cells => cells.length
  | .int64Col cells => cells.length
  | .float64Col cells => cells.length
  | .booleanCol cells => cells.length
  | .tsNanoCol cells => cells.length
  | .tsMilliCol cells => cells.length
  | .date32Col cells => cells.length

/-- Every cell of the column is null. -/
def ColumnData.isAllNull : ColumnData → Bool
  | .utf8Col cells => cells.all (·.isNone)
  | .int32Col cells => cells.all (·.isNone)
  | .int64Col cells => cells.all (·.isNone)
  | .float64Col cells => cells.all (·.isNone)
  | .booleanCol cells => cells.all (·.isNone)
  | .tsNanoCol cells => cells.all (·.isNone)
  | .tsMilliCol cells => cells.all (·.isNone)
  | .date32Col cells => cells.all (·.isNone)

/-- Arrow `RecordBatch` (schema plus columns, as validated by `try_new`). -/
structure RecordBatch where
  schema : List SchemaField
  columns : List ColumnData
deriving DecidableEq, Repr

/-- Row count of a batch: the length of its first column (an Arrow batch
always has at least one column by construction). -/
def RecordBatch.numRows (b : RecordBatch) : Nat :=
  match b.columns with
  | [] => 0
  | c :: _ => c.length

/-- Arrow `RecordBatch::try_new` (arrow-rs `try_new_impl` of the arrow
generation the repository pins, with default options): requires at least one
column, a column count equal to the schema field count, per-index data-type
agreement, and equal column lengths. -/
def RecordBatch.tryNew (schema : List SchemaField) (columns : List ColumnData) :
    Except ScanError RecordBatch :=
  if columns.isEmpty then
    .error (.user "at least one column must be defined to create a record batch")
  else if columns.length ≠ schema.length then
    .error (.user "number of columns must match number of fields in schema")
  else if ¬ ((schema.zip columns).all fun fc => fc.2.dataType == fc.1.dataType) then
    .error (.user "column types must match schema types")
  else if ¬ (columns.all fun c => c.length == (columns.headD (.utf8Col [])).length) then
    .error (.user "all columns in a record batch must have the same length")
  else
    .ok { schema := schema, columns := columns }

/-! ## Numeric parsing (Rust `str::parse`) -/

/-- Digit characters to a natural value (most significant first). -/
def digitsVal (ds : List Char) : Nat :=
  ds.foldl (fun a c => a * 10 + (c.toNat - '0'.toNat)) 0

/-- Greedily take at most `max` leading ASCII digits. -/
def takeDigits : Nat → List Char → (List Char × List Char)
  | 0, cs => ([], cs)
  | _ + 1, [] => ([], [])
  | n + 1, c :: cs =>
    if c.isDigit then
      let (ds, rest) := takeDigits n cs
      (c :: ds, rest)
    else
      ([], c :: cs)

/-- Rust integer `FromStr` grammar: an optional sign followed by one or more
ASCII digits, consuming the whole string; no range check here. -/
def parseSignedDigits (s : String) : Option Int :=
  let step : List Char → Option Nat := fun cs =>
    let (ds, rest) := takeDigits cs.length cs
    if ds.isEmpty ∨ ¬ rest.isEmpty then none else some (digitsVal ds)
  match s.data with
  | '-' :: cs => (step cs).map fun n => -(n : Int)
  | '+' :: cs => (step cs).map fun n => (n : Int)
  | cs => (step cs).map fun n => (n : Int)

/-- `s.parse::<i32>()`: the Rust parse with its overflow check (an
out-of-range value is `Err`, hence `none`).  The bounds are the i32 range
written as numerals so that concrete evaluations reduce in the kernel. -/
def parse_i32 (s : String) : Option Int :=
  match parseSignedDigits s with
  | some v => if -2147483648 ≤ v ∧ v ≤ 2147483647 then some v else none
  | none => none

/-- `s.parse::<i64>()` with the i64 range. -/
def parse_i64 (s : String) : Option Int :=
  match parseSignedDigits s with
  | some v => if -9223372036854775808 ≤ v ∧ v ≤ 9223372036854775807 then some v else none
  | none => none

/-- `f64::round`: round to the nearest integer, ties away from zero.
Computed from the numerator/denominator so that it reduces in the kernel:
for a nonnegative rational n/d this is floor((2n+d)/(2d)) = floor(n/d + 1/2),
with the half-way case landing on the larger magnitude, and the negative case
is its mirror image — exactly round-half-away-from-zero. -/
def rustRound (q : ℚ) : Int :=
  let r : Nat := (2 * q.num.natAbs + q.den) / (2 * q.den)
  if q.num < 0 then -(r : Int) else (r : Int)

/-- Rust `as i32` cast from a float: saturating at the i32 bounds. -/
def i32Sat (x : Int) : Int :=
  if x < -2147483648 then -2147483648 else if 2147483647 < x then 2147483647 else x

/-- Rust `as i64` cast from a float: saturating at the i64 bounds. -/
def i64Sat (x : Int) : Int :=
  if x < -9223372036854775808 then -9223372036854775808
  else if 9223372036854775807 < x then 9223372036854775807 else x

/-- Case-insensitive ASCII comparison of a char list against a keyword. -/
def eqIgnoreAsciiCase (cs : List Char) (kw : List Char) : Bool :=
  cs.map Char.toLower == kw

/-- `s.parse::<f64>()`: the Rust float grammar — optional sign, then one of
the keywords inf/infinity/nan (ASCII case-insensitive) or a significand
(digits, optionally with a fraction part; or a bare fraction) with an
optional exponent; the whole string must be consumed.  For finite inputs the
exact decimal value is kept as a rational (rounding to the nearest binary64
is not modelled; no verified property inspects the parsed value). -/
def parse_f64 (s : String) : Option F64 :=
  let significand : List Char → Option (Nat × Nat × List Char) := fun cs =>
    let (intDs, rest) := takeDigits cs.length cs
    match rest with
    | '.' :: rest2 =>
      let (fracDs, rest3) := takeDigits rest2.length rest2
      if intDs.isEmpty ∧ fracDs.isEmpty then none
      else
        some (digitsVal intDs * 10 ^ fracDs.length + digitsVal fracDs, fracDs.length, rest3)
    | _ =>
      if intDs.isEmpty then none else some (digitsVal intDs, 0, rest)
  let exponent : List Char → Option (Int × List Char) := fun cs =>
    match cs with
    | 'e' :: rest | 'E' :: rest =>
      let signed : Bool × List Char :=
        match rest with
        | '-' :: r => (true, r)
        | '+' :: r => (false, r)
        | r => (false, r)
      let (ds, rest2) := takeDigits signed.2.length signed.2
      if ds.isEmpty then none
      else some ((if signed.1 then -(digitsVal ds : Int) else (digitsVal ds : Int)), rest2)
    | cs => some (0, cs)
  let mkVal : Nat → Nat → Int → ℚ := fun mant fracLen e =>
    -- mant / 10^fracLen * 10^e, built through Rat.divInt so that concrete
    -- evaluations reduce in the kernel
    let e2 : Int := e - (fracLen : Int)
    if 0 ≤ e2 then Rat.divInt ((mant : Int) * ((10 ^ e2.toNat : Nat) : Int)) 1
    else Rat.divInt (mant : Int) ((10 ^ (-e2).toNat : Nat) : Int)
  let unsigned : List Char → Option F64 := fun cs =>
    if eqIgnoreAsciiCase cs ['i', 'n', 'f'] ∨
        eqIgnoreAsciiCase cs ['i', 'n', 'f', 'i', 'n', 'i', 't', 'y'] then
      some (.inf false)
    else if eqIgnoreAsciiCase cs ['n', 'a', 'n'] then
      some .nan
    else
      match significand cs with
      | none => none
      | some (mant, fracLen, rest) =>
        match exponent rest with
        | none => none
        | some (e, rest2) =>
          if rest2.isEmpty then some (.fin (mkVal mant fracLen e)) else none
  match s.data with
  | '-' :: cs =>
    (unsigned cs).map fun v =>
      match v with
      | .fin q => .fin (Rat.neg q)
      | .nan => .nan
      | .inf _ => .inf true
  | '+' :: cs => unsigned cs
  | cs => unsigned cs

/-! ## chrono date/time parsing

Model of `NaiveDateTime::parse_from_str` / `NaiveDate::parse_from_str` for
the fixed format strings used by scan.rs.  chrono numeric fields parse
greedily with a minimum width of 1 and a maximum width (4 for an unsigned
year, unbounded after an explicit sign; 2 for month/day/hour/minute/second;
9 for the `0x25f` nanosecond field, whose digits are interpreted as a literal
nanosecond count).  The whole input must be consumed.  Leap-second parsing
(second value 60) and chrono's exact year bounds are simplified to a second
range of 0..=59 and a year range of -262144..=262143; no verified property
depends on these fringes. -/

/-- Parse 1..max digits (greedy), requiring at least one. -/
def scanNum (max : Nat) (cs : List Char) : Option (Nat × List Char) :=
  let (ds, rest) := takeDigits max cs
  if ds.isEmpty then none else some (digitsVal ds, rest)

/-- chrono `%Y` when parsing: an optional explicit sign lifts the 4-digit
cap. -/
def scanYear (cs : List Char) : Option (Int × List Char) :=
  match cs with
  | '-' :: rest => (scanNum rest.length rest).map fun nr => (-(nr.1 : Int), nr.2)
  | '+' :: rest => (scanNum rest.length rest).map fun nr => ((nr.1 : Int), nr.2)
  | cs => (scanNum 4 cs).map fun nr => ((nr.1 : Int), nr.2)

/-- Expect one literal character. -/
def expectChar (c : Char) (cs : List Char) : Option (List Char) :=
  match cs with
  | c2 :: rest => if c2 == c then some rest else none
  | [] => none

/-- Expect a literal character sequence. -/
def expectChars (pat : List Char) (cs : List Char) : Option (List Char) :=
  match pat with
  | [] => some cs
  | p :: ps =>
    match expectChar p cs with
    | some rest => expectChars ps rest
    | none => none

/-- Gregorian leap year. -/
def isLeapYear (y : Int) : Bool :=
  y % 4 == 0 ∧ (y % 100 ≠ 0 ∨ y % 400 == 0)

/-- Days in a month. -/
def daysInMonth (y : Int) (m : Nat) : Nat :=
  match m with
  | 1 => 31 | 2 => if isLeapYear y then 29 else 28 | 3 => 31 | 4 => 30
  | 5 => 31 | 6 => 30 | 7 => 31 | 8 => 31 | 9 => 30 | 10 => 31 | 11 => 30
  | 12 => 31
  | _ => 0

/-- Days since 1970-01-01 of a civil date (Hinnant's algorithm, as used by
chrono's internal day numbering). -/
def daysFromCivil (y : Int) (m d : Nat) : Int :=
  let y2 := if m ≤ 2 then y - 1 else y
  let era := Int.fdiv y2 400
  let yoe := (y2 - era * 400).toNat
  let mp := if m ≤ 2 then m + 9 else m - 3
  let doy := (153 * mp + 2) / 5 + d - 1
  let doe := yoe * 365 + yoe / 4 - yoe / 100 + doy
  era * 146097 + (doe : Int) - 719468

/-- Validity of the parsed calendar/time fields (chrono's field resolution in
`NaiveDate::from_ymd` / `NaiveTime::from_hms_nano`). -/
def validDateTime (y : Int) (mo d h mi sec nano : Nat) : Bool :=
  -262144 ≤ y ∧ y ≤ 262143 ∧ 1 ≤ mo ∧ mo ≤ 12 ∧ 1 ≤ d ∧ d ≤ daysInMonth y mo ∧
    h ≤ 23 ∧ mi ≤ 59 ∧ sec ≤ 59 ∧ nano < 1000000000

/-- A parsed `NaiveDateTime`: whole days since the Unix epoch, the second of
the day and the nanosecond within the second. -/
structure NaiveDT where
  days : Int
  secOfDay : Nat
  nano : Nat
deriving DecidableEq, Repr

/-- `NaiveDateTime::timestamp_millis`. -/
def NaiveDT.timestampMillis (t : NaiveDT) : Int :=
  (t.days * 86400 + (t.secOfDay : Int)) * 1000 + (t.nano / 1000000 : Nat)

/-- `NaiveDateTime::timestamp_nanos`. -/
def NaiveDT.timestampNanos (t : NaiveDT) : Int :=
  (t.days * 86400 + (t.secOfDay : Int)) * 1000000000 + (t.nano : Int)

/-- Parse one timestamp format: date, the date/time separator `sep`, time,
and optionally a literal dot followed by the nanosecond field. -/
def parseTsFmt (sep : Char) (withFrac : Bool) (s : String) : Option NaiveDT := do
  let cs := s.data
  let (y, cs) ← scanYear cs
  let cs ← expectChar '-' cs
  let (mo, cs) ← scanNum 2 cs
  let cs ← expectChar '-' cs
  let (d, cs) ← scanNum 2 cs
  let cs ← expectChar sep cs
  let (h, cs) ← scanNum 2 cs
  let cs ← expectChar ':' cs
  let (mi, cs) ← scanNum 2 cs
  let cs ← expectChar ':' cs
  let (sec, cs) ← scanNum 2 cs
  let (nano, cs) ←
    if withFrac then do
      let cs ← expectChar '.' cs
      scanNum 9 cs
    else
      pure (0, cs)
  if ¬ cs.isEmpty then none
  else if validDateTime y mo d h mi sec nano then
    some { days := daysFromCivil y mo d, secOfDay := h * 3600 + mi * 60 + sec, nano := nano }
  else
    none

/-- The ordered chrono format chain of the timestamp arms of
`transform_response` (first match wins):
`%Y-%m-%dT%H:%M:%S.%f`, then `%Y-%m-%d %H:%M:%S.%f`, then
`%Y-%m-%dT%H:%M:%S`. -/
def parse_timestamp (s : String) : Option NaiveDT :=
  (parseTsFmt 'T' true s).orElse fun _ =>
    (parseTsFmt ' ' true s).orElse fun _ =>
      parseTsFmt 'T' false s

/-- `NaiveDate::parse_from_str(s, pat)` for `%Y-%m-%d`, optionally requiring
the literal suffix `T00:00:00.000` (the Date32 fallback format). -/
def parseDateFmt (suffix : List Char) (s : String) : Option Int := do
  let cs := s.data
  let (y, cs) ← scanYear cs
  let cs ← expectChar '-' cs
  let (mo, cs) ← scanNum 2 cs
  let cs ← expectChar '-' cs
  let (d, cs) ← scanNum 2 cs
  let cs ← expectChars suffix cs
  if ¬ cs.isEmpty then none
  else if validDateTime y mo d 0 0 0 0 then some (daysFromCivil y mo d) else none

/-- The Date32 parse chain: `%Y-%m-%d`, falling back to
`%Y-%m-%dT00:00:00.000`; the result is already the day count since
1970-01-01 (`num_days_from_ce` minus the epoch's `num_days_from_ce`). -/
def parse_date (s : String) : Option Int :=
  (parseDateFmt [] s).orElse fun _ =>
    parseDateFmt ['T', '0', '0', ':', '0', '0', ':', '0', '0', '.', '0', '0', '0'] s

/-- `(1i64 << 62) / 1_000_000`: the millisecond guard bound of the timestamp
arms. -/
def tsMillisGuard : Int := ((2 ^ 62 : Nat) / 1000000 : Nat)

/-! ## Row source: `JsonValueObject` -/

/-- The per-row body of `JsonValueObject::get`: a row must be a JSON object;
a missing field reads as `Value::Null`; a primitive field value maps to the
corresponding `FieldValue`; an array or object field value is an error.  (The
`Number::as_f64` conversion never fails for serde_json numbers without the
arbitrary-precision feature, so the number branch is total here; the Rust
error messages interpolate debug renderings of the offending value, which the
model elides.) -/
def jsonGetField (row : JValue) (field_name : String) : Except ScanError FieldValue :=
  match row with
  | .obj fields =>
    match (fields.lookup field_name).getD JValue.null with
    | .str s => .ok (.str s)
    | .num n => .ok (.num n)
    | .bool b => .ok (.bool b)
    | .null => .ok .null
    | _ => .error (.user "Expected primitive value but found: non-primitive")
  | _ => .error (.user "Unexpected response from Cube, row is not an object")

/-- `JsonValueObject`: the JSON-array-backed row source. -/
structure JsonValueObject where
  rows : List JValue

/-- `JsonValueObject::get` (`self.rows[index]` panics when out of bounds). -/
def JsonValueObject.get (o : JsonValueObject) (index : Nat) (field_name : String) :
    Except ScanError FieldValue :=
  match o.rows.get? index with
  | some row => jsonGetField row field_name
  | none => .error (.panicked "index out of bounds")

/-! ## The `build_column!` macro -/

/-- Sequential effectful map over a list in `Except` (the `for i in 0..len`
builder loop: the first error aborts the whole column). -/
def mapME {α β : Type} (f : α → Except ScanError β) : List α → Except ScanError (List β)
  | [] => .ok []
  | x :: xs => do
    let y ← f x
    let ys ← mapME f xs
    .ok (y :: ys)

/-- One expansion of `build_column!`: for `Member(name)` every row is fetched
and coerced (the loop runs over indices `0..len` of the row list, which is
the same as visiting the rows in order); for `Literal(value)` the literal arm
is matched once per row, so a scalar whose kind has no matching arm is a
fatal error exactly when the row count is positive. `fromScalar` is the
literal arm: `some cell` when the scalar kind matches the builder. -/
def buildCells {τ : Type} (rows : List JValue) (mf : MemberField)
    (coerce : FieldValue → Except ScanError (Option τ))
    (fromScalar : ScalarValue → Option (Option τ)) (dtName : String) :
    Except ScanError (List (Option τ)) :=
  match mf with
  | .member field_name => mapME (fun row => do coerce (← jsonGetField row field_name)) rows
  | .literal value =>
    match fromScalar value with
    | some cell => .ok (List.replicate rows.length cell)
    | none =>
      if rows.length = 0 then .ok []
      else .error (.user ("Unable to map value to " ++ dtName))

/-! Per-type member coercions (the builder arms of each `build_column!`
call, including the shared `FieldValue::Null` arm and the catch-all fatal
arm). -/

/-- Utf8 arms: string passthrough, bool to "true"/"false", number via
`f64::to_string` (modelled by a deterministic rational rendering; no
verified property inspects the digits). -/
def f64ToString (q : ℚ) : String :=
  toString q.num ++ (if q.den = 1 then "" else "/" ++ toString q.den)

def utf8Cell : FieldValue → Except ScanError (Option String)
  | .null => .ok none
  | .str v => .ok (some v)
  | .bool v => .ok (some (if v then "true" else "false"))
  | .num v => .ok (some (f64ToString v))

/-- Int32 arms: number rounded then cast, string parsed as i32 with a
warn-and-null fallback; bool hits the catch-all fatal arm. -/
def int32Cell : FieldValue → Except ScanError (Option Int)
  | .null => .ok none
  | .num number => .ok (some (i32Sat (rustRound number)))
  | .str s =>
    match parse_i32 s with
    | some v => .ok (some v)
    | none => .ok none
  | .bool _ => .error (.user "Unable to map value to Int32")

/-- Int64 arms. -/
def int64Cell : FieldValue → Except ScanError (Option Int)
  | .null => .ok none
  | .num number => .ok (some (i64Sat (rustRound number)))
  | .str s =>
    match parse_i64 s with
    | some v => .ok (some v)
    | none => .ok none
  | .bool _ => .error (.user "Unable to map value to Int64")

/-- Float64 arms: number passthrough, string parsed as f64 with a
warn-and-null fallback; bool is fatal. -/
def float64Cell : FieldValue → Except ScanError (Option F64)
  | .null => .ok none
  | .num number => .ok (some (.fin number))
  | .str s =>
    match parse_f64 s with
    | some v => .ok (some v)
    | none => .ok none
  | .bool _ => .error (.user "Unable to map value to Float64")

/-- Boolean arms: bool passthrough; the strings "true"/"1" and "false"/"0";
any other string logs and appends null; number is fatal. -/
def booleanCell : FieldValue → Except ScanError (Option Bool)
  | .null => .ok none
  | .bool v => .ok (some v)
  | .str v =>
    if v = "true" ∨ v = "1" then .ok (some true)
    else if v = "false" ∨ v = "0" then .ok (some false)
    else .ok none
  | .num _ => .error (.user "Unable to map value to Boolean")

/-- The fatal timestamp-parse error (`DataFusionError::Execution`, converted
into the CubeError channel by the `?`; the chrono error detail in the message
is elided). -/
def tsParseError (s : String) : ScanError :=
  .execution ("Cannot parse timestamp: " ++ s)

/-- Timestamp(Nanosecond) arms: only strings (and null) are accepted; an
unparseable string is a **fatal** error; a parsed instant beyond the
millisecond guard appends null instead of overflowing. -/
def tsNanoCell : FieldValue → Except ScanError (Option Int)
  | .null => .ok none
  | .str s =>
    match parse_timestamp s with
    | some t =>
      if t.timestampMillis > tsMillisGuard then .ok none
      else .ok (some t.timestampNanos)
    | none => .error (tsParseError s)
  | .num _ => .error (.user "Unable to map value to Timestamp Nanosecond")
  | .bool _ => .error (.user "Unable to map value to Timestamp Nanosecond")

/-- Timestamp(Millisecond) arms. -/
def tsMilliCell : FieldValue → Except ScanError (Option Int)
  | .null => .ok none
  | .str s =>
    match parse_timestamp s with
    | some t =>
      if t.timestampMillis > tsMillisGuard then .ok none
      else .ok (some t.timestampMillis)
    | none => .error (tsParseError s)
  | .num _ => .error (.user "Unable to map value to Timestamp Millisecond")
  | .bool _ => .error (.user "Unable to map value to Timestamp Millisecond")

/-- Date32 arms: string parsed as a date (with the zero-time ISO fallback);
a parse failure logs and appends null (non-fatal, unlike the timestamps). -/
def date32Cell : FieldValue → Except ScanError (Option Int)
  | .null => .ok none
  | .str s =>
    match parse_date s with
    | some days => .ok (some days)
    | none => .ok none
  | .num _ => .error (.user "Unable to map value to Date32")
  | .bool _ => .error (.user "Unable to map value to Date32")

/-! Per-type literal arms (`some cell` iff a scalar arm of the macro call
matches). -/

def ScalarValue.asUtf8 : ScalarValue → Option (Option String)
  | .utf8 v => some v
  | _ => none

def ScalarValue.asInt32 : ScalarValue → Option (Option Int)
  | .int32 v => some v
  | _ => none

def ScalarValue.asInt64 : ScalarValue → Option (Option Int)
  | .int64 v => some v
  | _ => none

def ScalarValue.asFloat64 : ScalarValue → Option (Option F64)
  | .float64 v => some (v.map F64.fin)
  | _ => none

def ScalarValue.asBoolean : ScalarValue → Option (Option Bool)
  | .boolean v => some v
  | _ => none

def ScalarValue.asTsNano : ScalarValue → Option (Option Int)
  | .timestampNanosecond v none => some v
  | _ => none

def ScalarValue.asTsMilli : ScalarValue → Option (Option Int)
  | .timestampMillisecond v none => some v
  | _ => none

def ScalarValue.asDate32 : ScalarValue → Option (Option Int)
  | .date32 v => some v
  | _ => none

/-- Whether the literal arm of the `build_column!` call for `dt` matches the
scalar kind. -/
def literalMatches (dt : DataType) (s : ScalarValue) : Bool :=
  match dt with
  | .utf8 => s.asUtf8.isSome
  | .int32 => s.asInt32.isSome
  | .int64 => s.asInt64.isSome
  | .float64 => s.asFloat64.isSome
  | .boolean => s.asBoolean.isSome
  | .tsNano => s.asTsNano.isSome
  | .tsMilli => s.asTsMilli.isSome
  | .date32 => s.asDate32.isSome
  | .other _ => false

/-- The per-column dispatch of `transform_response`: one `build_column!`
expansion per supported target type, the final catch-all arm for everything
else. -/
def build_column (rows : List JValue) (dt : DataType) (mf : MemberField) :
    Except ScanError ColumnData :=
  match dt with
  | .utf8 => ColumnData.utf8Col <$> buildCells rows mf utf8Cell ScalarValue.asUtf8 "Utf8"
  | .int32 => ColumnData.int32Col <$> buildCells rows mf int32Cell ScalarValue.asInt32 "Int32"
  | .int64 => ColumnData.int64Col <$> buildCells rows mf int64Cell ScalarValue.asInt64 "Int64"
  | .float64 =>
    ColumnData.float64Col <$> buildCells rows mf float64Cell ScalarValue.asFloat64 "Float64"
  | .boolean =>
    ColumnData.booleanCol <$> buildCells rows mf booleanCell ScalarValue.asBoolean "Boolean"
  | .tsNano =>
    ColumnData.tsNanoCol <$>
      buildCells rows mf tsNanoCell ScalarValue.asTsNano "Timestamp Nanosecond"
  | .tsMilli =>
    ColumnData.tsMilliCol <$>
      buildCells rows mf tsMilliCell ScalarValue.asTsMilli "Timestamp Millisecond"
  | .date32 => ColumnData.date32Col <$> buildCells rows mf date32Cell ScalarValue.asDate32 "Date32"
  | .other name =>
    .error (.user ("Type " ++ name ++ " is not supported in response transformation from Cube"))

/-- The column loop of `transform_response`: fields are enumerated in schema
order and `member_fields[i]` is indexed (a too-short member-fields list is a
Rust panic). -/
def buildColumns (rows : List JValue) :
    List SchemaField → List MemberField → Except ScanError (List ColumnData)
  | [], _ => .ok []
  | _ :: _, [] => .error (.panicked "index out of bounds: member_fields")
  | f :: fs, mf :: mfs => do
    let col ← build_column rows f.dataType mf
    let cols ← buildColumns rows fs mfs
    .ok (col :: cols)

/-- `transform_response`: build every column, then assemble the batch through
`RecordBatch::try_new`. -/
def transform_response (rows : List JValue) (schema : List SchemaField)
    (member_fields : List MemberField) : Except ScanError RecordBatch := do
  let columns ← buildColumns rows schema member_fields
  RecordBatch.tryNew schema columns

/-! ## Request, options, load_data and the execution policy -/

/-- Modelled from the spec and the usage in scan.rs: one time dimension of a
`V1LoadRequestQuery` (external cubeclient model); only `granularity` is
inspected by the scan core. -/
structure TimeDimension where
  dimension : String
  granularity : Option String
  dateRange : Option (List String)

/-- Modelled from the spec and the usage in scan.rs: the external cubeclient
`V1LoadRequestQuery`.  `limit`/`offset` are i32 in the source; `order` and
`filters` are carried opaquely (never inspected by this core). -/
structure V1LoadRequestQuery where
  measures : Option (List String)
  dimensions : Option (List String)
  segments : Option (List String)
  timeDimensions : Option (List TimeDimension)
  order : Option (List (List String))
  limit : Option Int
  offset : Option Int
  filters : Option (List JValue)
  ungrouped : Option Bool

/-- `CubeScanOptions`. -/
structure CubeScanOptions where
  changeUser : Option String
  maxRecords : Option Nat

/-- Modelled from the spec and the usage in scan.rs: the annotation envelope
of a `V1LoadResult` (only constructed, never consumed, by this core). -/
structure V1LoadResultEnvelope where
  measures : JValue
  dimensions : JValue
  segments : JValue
  timeDimensions : JValue

/-- Modelled from the spec and the usage in scan.rs: one result of the remote
load response: the annotation envelope plus the row data consumed here. -/
structure V1LoadResult where
  envelope : V1LoadResultEnvelope  -- the source field is named after the envelope it carries
  data : List JValue

/-- Modelled from the spec and the usage in scan.rs: the remote load
response; only `results` is consumed by this core. -/
structure V1LoadResponse where
  results : List V1LoadResult

/-- The remote transport's answer to one `load` call (the transport is an
external capability; one execution performs at most one `load`). -/
def TransportModel := Except String V1LoadResponse

/-- The `no_members_query` test in `load_data`: zero measures, zero
dimensions and zero time dimensions carrying a granularity. -/
def noMembersQuery (request : V1LoadRequestQuery) : Bool :=
  (request.measures.map List.length).getD 0 == 0 &&
    (request.dimensions.map List.length).getD 0 == 0 &&
    (request.timeDimensions.map
      fun v => (v.filter fun d => d.granularity.isSome).length).getD 0 == 0

/-- The annotation `load_data` synthesizes for a no-members query
(`json!([])` four times). -/
def emptyEnvelope : V1LoadResultEnvelope :=
  { measures := .arr [], dimensions := .arr [], segments := .arr [],
    timeDimensions := .arr [] }

/-- The max-records error message of `load_data`. -/
def maxRecordsError (maxRecords : Nat) : ScanError :=
  .execution ("One of the Cube queries exceeded the maximum row limit (" ++
    toString maxRecords ++
    "). JOIN/UNION is not possible as it will produce incorrect results. Try filtering the results more precisely or moving post-processing functions to an outer query.")

/-- `load_data`.  The second component counts the transport `load` calls
performed (0 or 1): a no-members query synthesizes `limit.unwrap_or(1)` null
rows locally; otherwise the transport is called once, the **last** element of
`results` is popped, and the `max_records` cap fails the fetch when the row
count reaches it. -/
def load_data (request : V1LoadRequestQuery) (options : CubeScanOptions)
    (transport : TransportModel) : Except ScanError V1LoadResult × Nat :=
  if noMembersQuery request then
    let limit := request.limit.getD 1
    (.ok { envelope := emptyEnvelope, data := List.replicate limit.toNat JValue.null }, 0)
  else
    match transport with
    | .error err => (.error (.execution err), 1)
    | .ok response =>
      match response.results.getLast? with
      | some data =>
        match options.maxRecords with
        | some maxRecords =>
          if data.data.length ≥ maxRecords then (.error (maxRecordsError maxRecords), 1)
          else (.ok data, 1)
        | none => (.ok data, 1)
      | none => (.error (.execution "Unable to extract result from Cube.js response"), 1)

/-- The streaming-mode decision of `CubeScanExecutionPlan::execute`: the env
toggle must be on AND the query has no limit or a limit above the configured
default. -/
def decideStreamMode (streamModeEnv : Bool) (queryLimit : Int)
    (request : V1LoadRequestQuery) : Bool :=
  match streamModeEnv, request.limit with
  | true, none => true
  | true, some limit => limit > queryLimit
  | false, _ => false

/-- The limit clamp of `execute`:
`request.limit.unwrap_or_default() > query_limit || request.limit.is_none()`
forces the configured default. -/
def clampRequest (queryLimit : Int) (request : V1LoadRequestQuery) : V1LoadRequestQuery :=
  if request.limit.getD 0 > queryLimit ∨ request.limit = none then
    { request with limit := some queryLimit }
  else
    request

/-- The requests `execute` routes to the transport: in streaming mode
`load_stream` receives `self.request.clone()` (the **original** request),
while the one-shot stream (used directly in one-shot mode and as the
downgrade fallback in streaming mode) always carries the clamped request. -/
structure ExecuteRequests where
  streamMode : Bool
  transportStreamRequest : Option V1LoadRequestQuery
  oneShotRequest : V1LoadRequestQuery

/-- The request-routing slice of `CubeScanExecutionPlan::execute` (lines
579-664): compute the mode, clamp the cloned request, hand the original
request to `load_stream` in streaming mode and the clamped request to the
one-shot path. -/
def executeRequests (streamModeEnv : Bool) (queryLimit : Int)
    (request : V1LoadRequestQuery) : ExecuteRequests :=
  let streamMode := decideStreamMode streamModeEnv queryLimit request
  let clamped := clampRequest queryLimit request
  { streamMode := streamMode
    transportStreamRequest := if streamMode then some request else none
    oneShotRequest := clamped }

/-! ## The stream router -/

/-- `CubeScanOneShotStream` (the injected collaborators — transport, auth,
meta, span — are passed separately where needed). -/
structure CubeScanOneShotStream where
  data : Option RecordBatch
  schema : List SchemaField
  memberFields : List MemberField
  request : V1LoadRequestQuery
  options : CubeScanOptions

/-- `CubeScanOneShotStream::poll_next`: `self.data.take()`. -/
def oneShotPollNext (s : CubeScanOneShotStream) :
    Option (Except ScanError RecordBatch) × CubeScanOneShotStream :=
  match s.data with
  | some batch => (some (.ok batch), { s with data := none })
  | none => (none, s)

/-- `load_to_stream_sync`: run `load_data` to completion on a dedicated
thread (the worker hop is not observable in this sequential model), then
`res.unwrap()` — a panic when `load_data` failed — and materialize the
response into `one_shot_stream.data`. -/
def load_to_stream_sync (transport : TransportModel) (s : CubeScanOneShotStream) :
    Except ScanError CubeScanOneShotStream :=
  match (load_data s.request s.options transport).1 with
  | .error _ => .error (.panicked "unwrap on Err in load_to_stream_sync")
  | .ok res =>
    match transform_response res.data s.schema s.memberFields with
    | .error e => .error (.execution (match e with
      | .user msg => msg | .execution msg => msg | .internal msg => msg | .panicked msg => msg))
    | .ok batch => .ok { s with data := some batch }

/-- Substring containment over character lists (kernel-reducible model of
`str::contains`). -/
def containsSub : List Char → List Char → Bool
  | [], pat => pat.isEmpty
  | c :: rest, pat => pat.isPrefixOf (c :: rest) || containsSub rest pat

/-- The distinguished capability error the router downgrades on:
`err.contains("streamQuery() method is not implemented yet")`. -/
def isNotImplementedErr (err : String) : Bool :=
  containsSub err.data "streamQuery() method is not implemented yet".data

/-- `CubeScanStreamRouter`: the live channel is modelled by the list of its
remaining elements (`none` = one-shot mode / downgraded; `some []` = a
closed channel that keeps reporting end-of-stream). -/
structure CubeScanStreamRouter where
  mainStream : Option (List (Except String RecordBatch))
  oneShotStream : CubeScanOneShotStream

/-- `CubeScanStreamRouter::poll_next` (one poll; `Poll::Pending` cannot arise
from a list-modelled channel): with a live channel, consume its next element;
on an error carrying the not-implemented marker, permanently drop the
channel, run the synchronous one-shot fetch and serve its batch; any other
element passes through.  Without a live channel, poll the one-shot stream. -/
def routerPollNext (transport : TransportModel) (r : CubeScanStreamRouter) :
    Option (Except ScanError RecordBatch) × CubeScanStreamRouter :=
  match r.mainStream with
  | some [] => (none, r)
  | some (item :: rest) =>
    match item with
    | .error err =>
      if isNotImplementedErr err then
        match load_to_stream_sync transport r.oneShotStream with
        | .ok s1 =>
          let (out, s2) := oneShotPollNext s1
          (out, { mainStream := none, oneShotStream := s2 })
        | .error e => (some (.error e), { r with mainStream := none })
      else
        (some (.error (.execution err)), { r with mainStream := some rest })
    | .ok batch => (some (.ok batch), { r with mainStream := some rest })
  | none =>
    let (out, s1) := oneShotPollNext r.oneShotStream
    (out, { r with oneShotStream := s1 })

/-! ## WrappedSelectNode and from_template

The node is generic in the host-engine types it never inspects: `E` is
`Expr`, `P` is `LogicalPlan` (an `Arc<LogicalPlan>` child), `S` is
`DFSchemaRef`, `ST` is `WrappedSelectType` and `J` is `JoinType`. -/

/-- `WrappedSelectNode`. -/
structure WrappedSelectNode (E P S ST J : Type) where
  schema : S
  selectType : ST
  projectionExpr : List E
  groupExpr : List E
  aggrExpr : List E
  windowExpr : List E
  fromPlan : P
  joins : List (P × E × J)
  filterExpr : List E
  havingExpr : List E
  limit : Option Nat
  offset : Option Nat
  orderExpr : List E
  aliasName : Option String  -- the source field alias (a Lean keyword)
  ungrouped : Bool

/-- `UserDefinedLogicalNode::inputs` for `WrappedSelectNode`: the `from`
child followed by every join child. -/
def WrappedSelectNode.inputsList {E P S ST J : Type} (n : WrappedSelectNode E P S ST J) :
    List P :=
  n.fromPlan :: n.joins.map fun j => j.1

/-- `UserDefinedLogicalNode::expressions` for `WrappedSelectNode`:
projection, group, aggregate, window, join, filter, having and order
expressions, in that order. -/
def WrappedSelectNode.expressions {E P S ST J : Type} (n : WrappedSelectNode E P S ST J) :
    List E :=
  n.projectionExpr ++ n.groupExpr ++ n.aggrExpr ++ n.windowExpr ++
    (n.joins.map fun j => j.2.1) ++ n.filterExpr ++ n.havingExpr ++ n.orderExpr

/-- `WrappedSelectNode::from_template`: assert both arities, then consume the
rewritten expressions in `expressions` order (the Rust iterator is modelled
by successive `splitAt`), take the `from` plan and the join plans from the
rewritten inputs, keep the join types, and rebuild the node with `limit`,
`offset` and `alias` reset to `None`.  A failed arity assertion is a Rust
panic, modelled by `none`. -/
def WrappedSelectNode.from_template {E P S ST J : Type}
    (self : WrappedSelectNode E P S ST J) (exprs : List E) (inputs : List P) :
    Option (WrappedSelectNode E P S ST J) :=
  if inputs.length = self.inputsList.length ∧ exprs.length = self.expressions.length then
    match inputs with
    | [] => none
    | fromPlan :: restInputs =>
      let joinPlans := restInputs.take self.joins.length
      let joinTypes := self.joins.map fun j => j.2.2
      let (projectionExpr, r1) := exprs.splitAt self.projectionExpr.length
      let (groupExpr, r2) := r1.splitAt self.groupExpr.length
      let (aggrExpr, r3) := r2.splitAt self.aggrExpr.length
      let (windowExpr, r4) := r3.splitAt self.windowExpr.length
      let (joinsExpr, r5) := r4.splitAt self.joins.length
      let (filterExpr, r6) := r5.splitAt self.filterExpr.length
      let (havingExpr, r7) := r6.splitAt self.havingExpr.length
      let (orderExpr, _) := r7.splitAt self.orderExpr.length
      some
        { schema := self.schema
          selectType := self.selectType
          projectionExpr := projectionExpr
          groupExpr := groupExpr
          aggrExpr := aggrExpr
          windowExpr := windowExpr
          fromPlan := fromPlan
          joins := joinPlans.zip (joinsExpr.zip joinTypes)
          filterExpr := filterExpr
          havingExpr := havingExpr
          limit := none
          offset := none
          orderExpr := orderExpr
          aliasName := none
          ungrouped := self.ungrouped }
  else
    none

/-! ## Concrete fixtures used by witnesses and counterexamples -/

/-- A request with every field unset. -/
def emptyRequest : V1LoadRequestQuery :=
  { measures := none, dimensions := none, segments := none, timeDimensions := none,
    order := none, limit := none, offset := none, filters := none, ungrouped := none }

/-- A one-measure request (not a no-members query). -/
def reqMeasure : V1LoadRequestQuery :=
  { emptyRequest with measures := some ["KibanaSampleDataEcommerce.count"] }

/-- Options with nothing set. -/
def noOptions : CubeScanOptions := { changeUser := none, maxRecords := none }

/-- The end-to-end rows of the integer-coercion scenario:
`[{count: null}, {count: 5}, {count: "5"}]`. -/
def rowsNull5Str5 : List JValue :=
  [.obj [("count", .null)], .obj [("count", .num 5)], .obj [("count", .str "5")]]

/-- A one-row remote response carrying `{count: 5}`. -/
def transportOneRow : TransportModel :=
  .ok { results := [{ envelope := emptyEnvelope, data := [.obj [("count", .num 5)]] }] }

/-- A one-shot stream before its fetch, over a single Int64 `count` column. -/
def oneShotFixture : CubeScanOneShotStream :=
  { data := none, schema := [⟨"count", .int64⟩], memberFields := [.member "count"],
    request := reqMeasure, options := noOptions }

/-- A channel error message carrying the not-implemented marker. -/
def notImplementedMsg : String :=
  "Error during planning: streamQuery() method is not implemented yet"

/-- The batch `transportOneRow` materializes to through `oneShotFixture`. -/
def batchOneRow : RecordBatch :=
  { schema := [⟨"count", .int64⟩], columns := [.int64Col [some 5]] }

/-! ## Helper lemmas -/

theorem exceptBind_ok {α β : Type} {e : Except ScanError α} {f : α → Except ScanError β}
    {b : β} (h : (e >>= f) = .ok b) : ∃ a, e = .ok a ∧ f a = .ok b := by
  cases e with
  | error err => simp [Bind.bind, Except.bind] at h
  | ok a => exact ⟨a, rfl, by simpa [Bind.bind, Except.bind] using h⟩

theorem exceptMap_ok {α β : Type} {g : α → β} {e : Except ScanError α} {b : β}
    (h : (g <$> e) = .ok b) : ∃ a, e = .ok a ∧ g a = b := by
  cases e with
  | error err => simp [Functor.map, Except.map] at h
  | ok a => exact ⟨a, rfl, by simpa [Functor.map, Except.map] using h⟩

theorem mapME_ok_length {α β : Type} (f : α → Except ScanError β) :
    ∀ (xs : List α) (ys : List β), mapME f xs = .ok ys → ys.length = xs.length := by
  intro xs
  induction xs with
  | nil =>
    intro ys h
    simp only [mapME] at h
    cases h
    rfl
  | cons x xs ih =>
    intro ys h
    simp only [mapME] at h
    obtain ⟨y, hy, h2⟩ := exceptBind_ok h
    obtain ⟨ys2, hys2, h3⟩ := exceptBind_ok h2
    cases h3
    simp [ih ys2 hys2]

/-- A successful `buildCells` yields one cell per row. -/
theorem buildCells_ok_length {τ : Type} {rows : List JValue} {mf : MemberField}
    {coerce : FieldValue → Except ScanError (Option τ)}
    {fromScalar : ScalarValue → Option (Option τ)} {dtName : String}
    {cells : List (Option τ)} (h : buildCells rows mf coerce fromScalar dtName = .ok cells) :
    cells.length = rows.length := by
  cases mf with
  | member field_name =>
    simp only [buildCells] at h
    exact mapME_ok_length _ rows cells h
  | literal value =>
    simp only [buildCells] at h
    cases hv : fromScalar value with
    | some cell =>
      rw [hv] at h
      cases h
      simp
    | none =>
      rw [hv] at h
      by_cases hz : rows.length = 0
      · rw [if_pos hz] at h
        cases h
        simp [hz]
      · rw [if_neg hz] at h
        cases h

/-- A successful `build_column` has the requested data type and one cell per
row. -/
theorem build_column_ok_shape {rows : List JValue} {dt : DataType} {mf : MemberField}
    {col : ColumnData} (h : build_column rows dt mf = .ok col) :
    col.dataType = dt ∧ col.length = rows.length := by
  cases dt <;> simp only [build_column] at h
  case other name => cases h
  all_goals
    obtain ⟨cells, hcells, hcol⟩ := exceptMap_ok h
  all_goals
    subst hcol
    exact ⟨rfl, buildCells_ok_length hcells⟩

/-- A successful `buildColumns` yields one column per schema field, each with
the field's type and one cell per row. -/
theorem buildColumns_ok_shape {rows : List JValue} :
    ∀ {schema : List SchemaField} {mfs : List MemberField} {cols : List ColumnData},
      buildColumns rows schema mfs = .ok cols →
      cols.map ColumnData.dataType = schema.map SchemaField.dataType ∧
        ∀ c ∈ cols, c.length = rows.length := by
  intro schema
  induction schema with
  | nil =>
    intro mfs cols h
    simp only [buildColumns] at h
    cases h
    simp
  | cons f fs ih =>
    intro mfs cols h
    cases mfs with
    | nil =>
      simp only [buildColumns] at h
      exact absurd h (by simp)
    | cons mf mfs =>
      simp only [buildColumns] at h
      obtain ⟨col, hcol, h2⟩ := exceptBind_ok h
      obtain ⟨cols2, hcols2, h3⟩ := exceptBind_ok h2
      cases h3
      obtain ⟨hdt, hlen⟩ := build_column_ok_shape hcol
      obtain ⟨hdts, hlens⟩ := ih hcols2
      refine ⟨by simp [hdt, hdts], ?_⟩
      intro c hc
      rcases List.mem_cons.mp hc with hc | hc
      · subst hc; exact hlen
      · exact hlens c hc

/-- A successful `RecordBatch::try_new` returns exactly the given schema and
columns, and the columns are nonempty. -/
theorem tryNew_ok {schema : List SchemaField} {columns : List ColumnData} {b : RecordBatch}
    (h : RecordBatch.tryNew schema columns = .ok b) :
    b.schema = schema ∧ b.columns = columns ∧ columns ≠ [] := by
  unfold RecordBatch.tryNew at h
  split at h
  · cases h
  · split at h
    · cases h
    · split at h
      · cases h
      · split at h
        · cases h
        · cases h
          refine ⟨rfl, rfl, ?_⟩
          intro hnil
          simp [hnil, List.isEmpty] at *

/-! ## C1 -/

/-- C1: for every row source, every schema whose column types are all
supported, and every member_fields list of the same length as the schema's
column list, a successful `transform_response` returns a `RecordBatch` whose
row count equals the row-source length and whose column count, order and
types exactly match the schema. -/
theorem c1_transform_response_shape
    (rows : List JValue) (schema : List SchemaField) (member_fields : List MemberField)
    (batch : RecordBatch)
    (hsup : ∀ f ∈ schema, f.dataType.isSupported = true)
    (hlen : member_fields.length = schema.length)
    (hok : transform_response rows schema member_fields = .ok batch) :
    batch.numRows = rows.length ∧
      batch.schema = schema ∧
      batch.columns.length = schema.length ∧
      batch.columns.map ColumnData.dataType = schema.map SchemaField.dataType := by
  unfold transform_response at hok
  obtain ⟨cols, hcols, htry⟩ := exceptBind_ok hok
  obtain ⟨hdts, hlens⟩ := buildColumns_ok_shape hcols
  obtain ⟨hbs, hbc, hne⟩ := tryNew_ok htry
  refine ⟨?_, hbs, ?_, ?_⟩
  · unfold RecordBatch.numRows
    rw [hbc]
    cases cols with
    | nil => exact absurd rfl hne
    | cons c cs => exact hlens c (List.mem_cons_self c cs)
  · rw [hbc]
    have := congrArg List.length hdts
    simpa using this
  · rw [hbc]
    exact hdts

/-- Witness for C1 at the `[null, 5, "5"]` rows against a one-column Int64
schema. -/
theorem c1_transform_response_shape_witness :
    transform_response rowsNull5Str5 [⟨"count", DataType.int64⟩] [.member "count"] =
      .ok { schema := [⟨"count", DataType.int64⟩],
            columns := [.int64Col [none, some 5, some 5]] } ∧
    ({ schema := [⟨"count", DataType.int64⟩],
       columns := [.int64Col [none, some 5, some 5]] } : RecordBatch).numRows =
      rowsNull5Str5.length := by
  have h := c1_transform_response_shape rowsNull5Str5 [⟨"count", DataType.int64⟩]
    [.member "count"]
    { schema := [⟨"count", DataType.int64⟩], columns := [.int64Col [none, some 5, some 5]] }
    (by decide) (by decide) (by decide)
  exact ⟨by decide, h.1⟩

/-! ## C2 -/

/-- C2: for a Member-bound Int32 or Int64 target column, `transform_response`
maps a null row value to a null cell, a JSON number to its value rounded to
the nearest integer (as the Rust `f64::round` then an `as`-cast), and the
numeric string "5" to the parsed integer 5; a non-parseable string yields a
null cell (logged, not fatal); and the source rows
`[{count: null}, {count: 5}, {count: "5"}]` yield the cells
`[null, 5, 5]`. -/
theorem c2_integer_coercion :
    (int32Cell .null = .ok none ∧ int64Cell .null = .ok none) ∧
    (∀ q : ℚ, int32Cell (.num q) = .ok (some (i32Sat (rustRound q))) ∧
      int64Cell (.num q) = .ok (some (i64Sat (rustRound q)))) ∧
    (int32Cell (.str "5") = .ok (some 5) ∧ int64Cell (.str "5") = .ok (some 5)) ∧
    (∀ s : String, parse_i32 s = none → int32Cell (.str s) = .ok none) ∧
    (∀ s : String, parse_i64 s = none → int64Cell (.str s) = .ok none) ∧
    (transform_response rowsNull5Str5 [⟨"count", .int32⟩] [.member "count"] =
        .ok { schema := [⟨"count", DataType.int32⟩],
              columns := [.int32Col [none, some 5, some 5]] } ∧
      transform_response rowsNull5Str5 [⟨"count", .int64⟩] [.member "count"] =
        .ok { schema := [⟨"count", DataType.int64⟩],
              columns := [.int64Col [none, some 5, some 5]] }) := by
  refine ⟨⟨rfl, rfl⟩, fun q => ⟨rfl, rfl⟩, by decide, ?_, ?_, by decide, by decide⟩
  · intro s h
    simp only [int32Cell, h]
  · intro s h
    simp only [int64Cell, h]

/-- Witness for C2 at the non-parseable string "abc". -/
theorem c2_integer_coercion_witness :
    int32Cell (.str "abc") = .ok none ∧ int64Cell (.str "abc") = .ok none := by
  exact ⟨c2_integer_coercion.2.2.2.1 "abc" (by decide),
    c2_integer_coercion.2.2.2.2.1 "abc" (by decide)⟩

/-! ## C3 -/

/-- C3 counterexample: with the streaming toggle on and an unset limit,
`execute` selects streaming mode and hands the transport
(`load_stream`) the **original** request, whose limit is still unset — not
the configured default (50000), contradicting the claim that the request
sent to the transport is clamped in both modes. -/
theorem c3_counterexample :
    (executeRequests true 50000 emptyRequest).streamMode = true ∧
      ((executeRequests true 50000 emptyRequest).transportStreamRequest.map
        fun r => r.limit) = some none ∧
      some (none : Option Int) ≠ some (some (50000 : Int)) := by
  exact ⟨rfl, rfl, by decide⟩

/-- C3 amended: whenever the original limit is unset or above the configured
default, the clamped request used by the one-shot path (both as the direct
one-shot fetch and as the streaming-mode fallback) carries the configured
default as its limit; the streaming `load_stream` call, by contrast, always
receives the original request unchanged. -/
theorem c3_limit_clamped (env : Bool) (queryLimit : Int) (request : V1LoadRequestQuery)
    (h : request.limit = none ∨ request.limit.getD 0 > queryLimit) :
    (executeRequests env queryLimit request).oneShotRequest.limit = some queryLimit ∧
      (executeRequests env queryLimit request).transportStreamRequest =
        (if decideStreamMode env queryLimit request then some request else none) := by
  refine ⟨?_, rfl⟩
  unfold executeRequests clampRequest
  rcases h with h | h
  · simp [h]
  · simp [if_pos (Or.inl h)]

/-- Witness for C3 amended at an unset-limit request in one-shot mode. -/
theorem c3_limit_clamped_witness :
    (executeRequests false 50000 emptyRequest).oneShotRequest.limit = some 50000 ∧
      (executeRequests false 50000 emptyRequest).transportStreamRequest = none := by
  have h := c3_limit_clamped false 50000 emptyRequest (Or.inl rfl)
  exact ⟨h.1, h.2⟩

/-! ## C4 -/

/-- C4: with `max_records = M` set, a one-shot `load_data` whose remote
response carries `M` or more rows fails with the explicit max-records error
(returning only the error — no truncated data), and a response carrying
`M - 1` rows succeeds with the full result. -/
theorem c4_max_records_guard (request : V1LoadRequestQuery) (options : CubeScanOptions)
    (M : Nat) (response : V1LoadResponse) (result : V1LoadResult)
    (hq : noMembersQuery request = false)
    (hM : options.maxRecords = some M)
    (hlast : response.results.getLast? = some result) :
    (result.data.length ≥ M →
      load_data request options (.ok response) = (.error (maxRecordsError M), 1)) ∧
      (result.data.length = M - 1 → 1 ≤ M →
        load_data request options (.ok response) = (.ok result, 1)) := by
  constructor
  · intro hge
    simp [load_data, hq, hlast, hM, hge]
  · intro hlen hM1
    have hlt : ¬ result.data.length ≥ M := by omega
    simp [load_data, hq, hlast, hM, hlt]

/-- Witness for C4: a one-row response fails against `max_records = 1` and
succeeds against `max_records = 2`. -/
theorem c4_max_records_guard_witness :
    load_data reqMeasure ⟨none, some 1⟩
        (.ok ⟨[⟨emptyEnvelope, [.obj [("count", .num 5)]]⟩]⟩) =
      (.error (maxRecordsError 1), 1) ∧
      load_data reqMeasure ⟨none, some 2⟩
          (.ok ⟨[⟨emptyEnvelope, [.obj [("count", .num 5)]]⟩]⟩) =
        (.ok ⟨emptyEnvelope, [.obj [("count", .num 5)]]⟩, 1) := by
  constructor
  · exact (c4_max_records_guard reqMeasure ⟨none, some 1⟩ 1
      ⟨[⟨emptyEnvelope, [.obj [("count", .num 5)]]⟩]⟩
      ⟨emptyEnvelope, [.obj [("count", .num 5)]]⟩
      rfl rfl rfl).1 (by decide)
  · exact (c4_max_records_guard reqMeasure ⟨none, some 2⟩ 2
      ⟨[⟨emptyEnvelope, [.obj [("count", .num 5)]]⟩]⟩
      ⟨emptyEnvelope, [.obj [("count", .num 5)]]⟩
      rfl rfl rfl).2 (by decide) (by decide)

/-! ## C5 -/

/-- Reading the single field of a one-field object row. -/
theorem jsonGetField_singleton_str (name s : String) :
    jsonGetField (.obj [(name, .str s)]) name = .ok (.str s) := by
  simp [jsonGetField, List.lookup]

/-- C5: a Member-bound string that matches none of the accepted timestamp
formats aborts the whole materialization of a Timestamp (nanosecond or
millisecond) column with an error, whereas a non-parseable string for an
Int32/Int64/Float64 or Date32 column yields a null cell and materialization
continues (a later parseable row still produces its value). -/
theorem c5_fatal_vs_nonfatal (s name : String) :
    (parse_timestamp s = none →
      transform_response [.obj [(name, .str s)]] [⟨name, .tsNano⟩] [.member name] =
          .error (tsParseError s) ∧
        transform_response [.obj [(name, .str s)]] [⟨name, .tsMilli⟩] [.member name] =
          .error (tsParseError s)) ∧
      (parse_i32 s = none →
        transform_response [.obj [(name, .str s)], .obj [(name, .str "7")]]
            [⟨name, .int32⟩] [.member name] =
          .ok { schema := [⟨name, DataType.int32⟩], columns := [.int32Col [none, some 7]] }) ∧
      (parse_i64 s = none →
        transform_response [.obj [(name, .str s)], .obj [(name, .str "7")]]
            [⟨name, .int64⟩] [.member name] =
          .ok { schema := [⟨name, DataType.int64⟩], columns := [.int64Col [none, some 7]] }) ∧
      (parse_f64 s = none →
        transform_response [.obj [(name, .str s)], .obj [(name, .str "7")]]
            [⟨name, .float64⟩] [.member name] =
          .ok { schema := [⟨name, DataType.float64⟩],
                columns := [.float64Col [none, some (.fin 7)]] }) ∧
      (parse_date s = none →
        transform_response [.obj [(name, .str s)], .obj [(name, .str "2020-01-02")]]
            [⟨name, .date32⟩] [.member name] =
          .ok { schema := [⟨name, DataType.date32⟩],
                columns := [.date32Col [none, some 18263]] }) := by
  have hs := jsonGetField_singleton_str name s
  have h7 := jsonGetField_singleton_str name "7"
  have hd := jsonGetField_singleton_str name "2020-01-02"
  have h7i32 : parse_i32 "7" = some 7 := by decide
  have h7i64 : parse_i64 "7" = some 7 := by decide
  have h7f : parse_f64 "7" = some (.fin 7) := by decide
  have hdd : parse_date "2020-01-02" = some 18263 := by decide
  refine ⟨fun h => ⟨?_, ?_⟩, fun h => ?_, fun h => ?_, fun h => ?_, fun h => ?_⟩
  · simp [transform_response, buildColumns, build_column, buildCells, mapME, hs,
      tsNanoCell, h, Bind.bind, Except.bind, Functor.map, Except.map]
  · simp [transform_response, buildColumns, build_column, buildCells, mapME, hs,
      tsMilliCell, h, Bind.bind, Except.bind, Functor.map, Except.map]
  · simp [transform_response, buildColumns, build_column, buildCells, mapME, hs, h7,
      int32Cell, h, h7i32, Bind.bind, Except.bind, Functor.map, Except.map,
      RecordBatch.tryNew, ColumnData.dataType]
  · simp [transform_response, buildColumns, build_column, buildCells, mapME, hs, h7,
      int64Cell, h, h7i64, Bind.bind, Except.bind, Functor.map, Except.map,
      RecordBatch.tryNew, ColumnData.dataType]
  · simp [transform_response, buildColumns, build_column, buildCells, mapME, hs, h7,
      float64Cell, h, h7f, Bind.bind, Except.bind, Functor.map, Except.map,
      RecordBatch.tryNew, ColumnData.dataType]
  · simp [transform_response, buildColumns, build_column, buildCells, mapME, hs, hd,
      date32Cell, h, hdd, Bind.bind, Except.bind, Functor.map, Except.map,
      RecordBatch.tryNew, ColumnData.dataType]

/-- Witness for C5 at the non-parseable string "boom". -/
theorem c5_fatal_vs_nonfatal_witness :
    transform_response [.obj [("t", .str "boom")]] [⟨"t", .tsNano⟩] [.member "t"] =
        .error (tsParseError "boom") ∧
      transform_response [.obj [("d", .str "boom")], .obj [("d", .str "2020-01-02")]]
          [⟨"d", .date32⟩] [.member "d"] =
        .ok { schema := [⟨"d", DataType.date32⟩],
              columns := [.date32Col [none, some 18263]] } := by
  exact ⟨((c5_fatal_vs_nonfatal "boom" "t").1 (by decide)).1,
    (c5_fatal_vs_nonfatal "boom" "d").2.2.2.2 (by decide)⟩

/-! ## C6 -/

/-- C6: while the router holds a live streaming channel, an error element
carrying the not-implemented marker makes it permanently discard the channel,
synchronously perform the one-shot fetch and serve that batch; once the
channel is gone it stays gone (the streaming side is never polled again);
and dropping the channel on exactly that error is the only mode transition
the router ever makes. -/
theorem c6_router_downgrade (transport : TransportModel) (r : CubeScanStreamRouter) :
    (∀ e rest, r.mainStream = some (.error e :: rest) → isNotImplementedErr e = true →
      (routerPollNext transport r).2.mainStream = none ∧
        ∀ s1, load_to_stream_sync transport r.oneShotStream = .ok s1 →
          (routerPollNext transport r).1 = (oneShotPollNext s1).1 ∧
            (routerPollNext transport r).2.oneShotStream = (oneShotPollNext s1).2) ∧
      (r.mainStream = none → (routerPollNext transport r).2.mainStream = none) ∧
      ((routerPollNext transport r).2.mainStream.isSome ≠ r.mainStream.isSome →
        ∃ e rest, r.mainStream = some (.error e :: rest) ∧ isNotImplementedErr e = true) := by
  refine ⟨?_, ?_, ?_⟩
  · intro e rest hms hmagic
    cases hl : load_to_stream_sync transport r.oneShotStream with
    | ok s1 =>
      constructor
      · simp [routerPollNext, hms, hmagic, hl]
      · intro s2 hl2
        injection hl2 with hs12
        subst hs12
        constructor
        · simp [routerPollNext, hms, hmagic, hl]
        · simp [routerPollNext, hms, hmagic, hl]
    | error err =>
      constructor
      · simp [routerPollNext, hms, hmagic, hl]
      · intro s2 hl2
        exact absurd hl2 (by simp)
  · intro hms
    simp [routerPollNext, hms]
  · intro hchange
    cases hms : r.mainStream with
    | none =>
      rw [hms] at hchange
      simp [routerPollNext, hms] at hchange
    | some items =>
      cases items with
      | nil =>
        rw [hms] at hchange
        simp [routerPollNext, hms] at hchange
      | cons item rest =>
        cases item with
        | ok b =>
          rw [hms] at hchange
          simp [routerPollNext, hms] at hchange
        | error e =>
          by_cases hmagic : isNotImplementedErr e
          · exact ⟨e, rest, rfl, hmagic⟩
          · rw [hms] at hchange
            simp [routerPollNext, hms, hmagic] at hchange

/-- Witness for C6: a router whose channel starts with the distinguished
error downgrades and serves the one-shot batch built from the fixture
transport. -/
theorem c6_router_downgrade_witness :
    (routerPollNext transportOneRow
        { mainStream := some [.error notImplementedMsg], oneShotStream := oneShotFixture }).1 =
      some (.ok batchOneRow) ∧
      (routerPollNext transportOneRow
        { mainStream := some [.error notImplementedMsg],
          oneShotStream := oneShotFixture }).2.mainStream = none := by
  have hload : load_to_stream_sync transportOneRow oneShotFixture =
      .ok { oneShotFixture with data := some batchOneRow } := by rfl
  have h := (c6_router_downgrade transportOneRow
    { mainStream := some [.error notImplementedMsg], oneShotStream := oneShotFixture }).1
    notImplementedMsg [] rfl (by decide)
  refine ⟨?_, h.1⟩
  have h2 := (h.2 { oneShotFixture with data := some batchOneRow } hload).1
  rw [h2]
  decide

/-! ## C7 -/

/-- C7: a request with zero measures, zero dimensions and zero granular
time-dimensions makes no transport call and synthesizes
`limit.unwrap_or(1)` all-null rows locally; in particular `limit = 3` yields
exactly 3 null rows and zero transport calls. -/
theorem c7_no_members_query (request : V1LoadRequestQuery) (options : CubeScanOptions)
    (transport : TransportModel) (h : noMembersQuery request = true) :
    load_data request options transport =
      (.ok ⟨emptyEnvelope, List.replicate (request.limit.getD 1).toNat JValue.null⟩, 0) ∧
      (request.limit = some 3 →
        load_data request options transport =
          (.ok ⟨emptyEnvelope, List.replicate 3 JValue.null⟩, 0)) := by
  constructor
  · simp [load_data, h]
  · intro h3
    simp [load_data, h, h3]

/-- Witness for C7: a no-members request with limit 3 against a transport
that would fail if it were ever called. -/
theorem c7_no_members_query_witness :
    load_data { emptyRequest with limit := some 3 } noOptions (.error "transport down") =
      (.ok ⟨emptyEnvelope, [JValue.null, JValue.null, JValue.null]⟩, 0) := by
  exact (c7_no_members_query { emptyRequest with limit := some 3 } noOptions
    (.error "transport down") rfl).2 rfl

/-! ## C8 -/

/-- Projections of a three-way zip of equal-length lists. -/
theorem zipTriple_proj {P E J : Type} :
    ∀ (as : List P) (bs : List E) (cs : List J), as.length = bs.length →
      bs.length = cs.length →
      ((as.zip (bs.zip cs)).map (fun t => t.1) = as ∧
        (as.zip (bs.zip cs)).map (fun t => t.2.1) = bs ∧
        (as.zip (bs.zip cs)).map (fun t => t.2.2) = cs) := by
  intro as
  induction as with
  | nil =>
    intro bs cs h1 h2
    have hbs : bs = [] := List.eq_nil_of_length_eq_zero h1.symm
    subst hbs
    have hcs : cs = [] := List.eq_nil_of_length_eq_zero h2.symm
    subst hcs
    simp
  | cons a as ih =>
    intro bs cs h1 h2
    cases bs with
    | nil => simp at h1
    | cons b bs =>
      cases cs with
      | nil => simp at h2
      | cons c cs =>
        simp only [List.length_cons, Nat.succ.injEq] at h1 h2
        obtain ⟨ha, hb, hc⟩ := ih bs cs h1 h2
        simp [ha, hb, hc]

/-- C8: `WrappedSelectNode::from_template` with arity-matching expression and
input lists succeeds and returns a node whose `limit`, `offset` and `alias`
are unset regardless of the original node, whose schema, select type,
ungrouped flag and join types are carried over from the original, and whose
expression lists and child plans are exactly the provided rewritten
arguments (`node.expressions = exprs` and `node.inputsList = inputs`). -/
theorem c8_from_template_resets {E P S ST J : Type}
    (self : WrappedSelectNode E P S ST J) (exprs : List E) (inputs : List P)
    (hin : inputs.length = self.inputsList.length)
    (hex : exprs.length = self.expressions.length) :
    ∃ node, self.from_template exprs inputs = some node ∧
      node.limit = none ∧ node.offset = none ∧ node.aliasName = none ∧
      node.schema = self.schema ∧ node.selectType = self.selectType ∧
      node.ungrouped = self.ungrouped ∧
      (node.joins.map fun t => t.2.2) = (self.joins.map fun t => t.2.2) ∧
      node.expressions = exprs ∧
      node.inputsList = inputs := by
  cases inputs with
  | nil => simp [WrappedSelectNode.inputsList] at hin
  | cons fromPlan restInputs =>
    have hrest : restInputs.length = self.joins.length := by
      simpa [WrappedSelectNode.inputsList] using hin
    have hjp : restInputs.take self.joins.length = restInputs := by
      rw [← hrest]
      exact List.take_length restInputs
    have hexlen : exprs.length =
        self.projectionExpr.length + self.groupExpr.length + self.aggrExpr.length +
          self.windowExpr.length + self.joins.length + self.filterExpr.length +
          self.havingExpr.length + self.orderExpr.length := by
      simp only [WrappedSelectNode.expressions, List.length_append, List.length_map] at hex
      omega
    have hjexpr : (((((exprs.drop self.projectionExpr.length).drop
          self.groupExpr.length).drop self.aggrExpr.length).drop
          self.windowExpr.length).take self.joins.length).length =
        self.joins.length := by
      simp only [List.length_take, List.length_drop]
      omega
    have hzip := zipTriple_proj
      (restInputs.take self.joins.length)
      (((((exprs.drop self.projectionExpr.length).drop self.groupExpr.length).drop
        self.aggrExpr.length).drop self.windowExpr.length).take self.joins.length)
      (self.joins.map fun t => t.2.2)
      (by rw [hjp, hrest, hjexpr])
      (by rw [hjexpr]; simp)
    unfold WrappedSelectNode.from_template
    rw [if_pos ⟨hin, hex⟩]
    simp only [List.splitAt_eq]
    refine ⟨_, rfl, rfl, rfl, rfl, rfl, rfl, rfl, ?_, ?_, ?_⟩
    · exact hzip.2.2
    · simp only [WrappedSelectNode.expressions]
      rw [hzip.2.1]
      have hlast : ((((((((exprs.drop self.projectionExpr.length).drop
            self.groupExpr.length).drop self.aggrExpr.length).drop
            self.windowExpr.length).drop self.joins.length).drop
            self.filterExpr.length).drop self.havingExpr.length)).length ≤
          self.orderExpr.length := by
        simp only [List.length_drop]
        omega
      rw [List.take_of_length_le hlast]
      simp only [List.append_assoc]
      rw [List.take_append_drop, List.take_append_drop, List.take_append_drop,
        List.take_append_drop, List.take_append_drop, List.take_append_drop,
        List.take_append_drop]
    · simp only [WrappedSelectNode.inputsList]
      rw [hzip.1, hjp]

/-- Witness for C8 over concrete host-engine types: a node with one join, one
projection expression, a set limit/offset/alias, reconstructed from fresh
expressions and inputs. -/
theorem c8_from_template_resets_witness :
    (@WrappedSelectNode.from_template Nat String Nat Nat Nat
        { schema := 7, selectType := 1, projectionExpr := [10], groupExpr := [],
          aggrExpr := [], windowExpr := [], fromPlan := "from0",
          joins := [("join0", 20, 3)], filterExpr := [], havingExpr := [],
          limit := some 5, offset := some 6, orderExpr := [], aliasName := some "a",
          ungrouped := true }
        [11, 21] ["from1", "join1"]).map
      (fun node => (node.limit, node.offset, node.aliasName, node.expressions,
        node.inputsList)) =
      some (none, none, none, [11, 21], ["from1", "join1"]) := by
  obtain ⟨node, h1, h2, h3, h4, _, _, _, _, h9, h10⟩ :=
    @c8_from_template_resets Nat String Nat Nat Nat
    { schema := 7, selectType := 1, projectionExpr := [10], groupExpr := [],
      aggrExpr := [], windowExpr := [], fromPlan := "from0",
      joins := [("join0", 20, 3)], filterExpr := [], havingExpr := [],
      limit := some 5, offset := some 6, orderExpr := [], aliasName := some "a",
      ungrouped := true }
    [11, 21] ["from1", "join1"] (by decide) (by decide)
  rw [h1]
  simp [h2, h3, h4, h9, h10]

/-! ## C9 -/

/-- Every cell of a replicated-null column is null. -/
theorem replicate_none_all_isNone {t : Type} (n : Nat) :
    (List.replicate n (none : Option t)).all (fun c => c.isNone) = true := by
  induction n with
  | zero => rfl
  | succ n ih => simp [List.replicate_succ, ih]

/-- Reading a field absent from every object row coerces to a null cell for
any per-type coercion that maps `FieldValue.Null` to null. -/
theorem mapME_null_cells {t : Type} (coerce : FieldValue → Except ScanError (Option t))
    (hnull : coerce .null = .ok none) (name : String) :
    ∀ (objs : List (List (String × JValue))), (∀ ob ∈ objs, ob.lookup name = none) →
      mapME (fun row => do coerce (← jsonGetField row name)) (objs.map JValue.obj) =
        .ok (List.replicate objs.length none) := by
  intro objs
  induction objs with
  | nil => intro _; rfl
  | cons ob obs ih =>
    intro h
    have hob : ob.lookup name = none := h ob (List.mem_cons_self ob obs)
    have hrest := ih fun x hx => h x (List.mem_cons_of_mem ob hx)
    have hget : jsonGetField (JValue.obj ob) name = .ok .null := by
      simp [jsonGetField, hob]
    simp only [Bind.bind, Except.bind] at hrest
    simp [mapME, List.map_cons, hget, hnull, hrest, Bind.bind, Except.bind,
      List.replicate_succ]

/-- C9: `JsonValueObject::get` maps a field absent from an object row to
`FieldValue::Null` (not an error) — so a Member column bound to an absent
field materializes as an all-null column — while a non-object row, or an
array/object field value, yields an error. -/
theorem c9_json_value_object_get :
    (∀ (o : JsonValueObject) (i : Nat) (fields : List (String × JValue)) (name : String),
      o.rows.get? i = some (.obj fields) → fields.lookup name = none →
      o.get i name = .ok .null) ∧
      (∀ (o : JsonValueObject) (i : Nat) (row : JValue) (name : String),
        o.rows.get? i = some row → (∀ fields, row ≠ .obj fields) →
        o.get i name =
          .error (.user "Unexpected response from Cube, row is not an object")) ∧
      (∀ (o : JsonValueObject) (i : Nat) (fields : List (String × JValue)) (name : String)
        (xs : List JValue), o.rows.get? i = some (.obj fields) →
        fields.lookup name = some (.arr xs) →
        o.get i name = .error (.user "Expected primitive value but found: non-primitive")) ∧
      (∀ (o : JsonValueObject) (i : Nat) (fields : List (String × JValue)) (name : String)
        (inner : List (String × JValue)), o.rows.get? i = some (.obj fields) →
        fields.lookup name = some (.obj inner) →
        o.get i name = .error (.user "Expected primitive value but found: non-primitive")) ∧
      (∀ (dt : DataType) (name : String) (objs : List (List (String × JValue))),
        dt.isSupported = true → (∀ ob ∈ objs, ob.lookup name = none) →
        ∃ col, build_column (objs.map JValue.obj) dt (.member name) = .ok col ∧
          col.isAllNull = true ∧ col.length = objs.length) := by
  refine ⟨?_, ?_, ?_, ?_, ?_⟩
  · intro o i fields name hrow hlk
    simp only [List.get?_eq_getElem?] at hrow
    simp [JsonValueObject.get, hrow, jsonGetField, hlk]
  · intro o i row name hrow hneq
    simp only [List.get?_eq_getElem?] at hrow
    simp only [JsonValueObject.get, List.get?_eq_getElem?, hrow]
    cases row with
    | obj fields => exact absurd rfl (hneq fields)
    | null => rfl
    | bool b => rfl
    | num q => rfl
    | str s => rfl
    | arr xs => rfl
  · intro o i fields name xs hrow hlk
    simp only [List.get?_eq_getElem?] at hrow
    simp [JsonValueObject.get, hrow, jsonGetField, hlk]
  · intro o i fields name inner hrow hlk
    simp only [List.get?_eq_getElem?] at hrow
    simp [JsonValueObject.get, hrow, jsonGetField, hlk]
  · intro dt name objs hsup hnone
    cases dt with
    | other nm => simp [DataType.isSupported] at hsup
    | utf8 =>
      refine ⟨.utf8Col (List.replicate objs.length none), ?_, ?_, ?_⟩
      · simp only [build_column, buildCells]
        rw [mapME_null_cells utf8Cell rfl name objs hnone]
        rfl
      · simp [ColumnData.isAllNull, replicate_none_all_isNone]
      · simp [ColumnData.length]
    | int32 =>
      refine ⟨.int32Col (List.replicate objs.length none), ?_, ?_, ?_⟩
      · simp only [build_column, buildCells]
        rw [mapME_null_cells int32Cell rfl name objs hnone]
        rfl
      · simp [ColumnData.isAllNull, replicate_none_all_isNone]
      · simp [ColumnData.length]
    | int64 =>
      refine ⟨.int64Col (List.replicate objs.length none), ?_, ?_, ?_⟩
      · simp only [build_column, buildCells]
        rw [mapME_null_cells int64Cell rfl name objs hnone]
        rfl
      · simp [ColumnData.isAllNull, replicate_none_all_isNone]
      · simp [ColumnData.length]
    | float64 =>
      refine ⟨.float64Col (List.replicate objs.length none), ?_, ?_, ?_⟩
      · simp only [build_column, buildCells]
        rw [mapME_null_cells float64Cell rfl name objs hnone]
        rfl
      · simp [ColumnData.isAllNull, replicate_none_all_isNone]
      · simp [ColumnData.length]
    | boolean =>
      refine ⟨.booleanCol (List.replicate objs.length none), ?_, ?_, ?_⟩
      · simp only [build_column, buildCells]
        rw [mapME_null_cells booleanCell rfl name objs hnone]
        rfl
      · simp [ColumnData.isAllNull, replicate_none_all_isNone]
      · simp [ColumnData.length]
    | tsNano =>
      refine ⟨.tsNanoCol (List.replicate objs.length none), ?_, ?_, ?_⟩
      · simp only [build_column, buildCells]
        rw [mapME_null_cells tsNanoCell rfl name objs hnone]
        rfl
      · simp [ColumnData.isAllNull, replicate_none_all_isNone]
      · simp [ColumnData.length]
    | tsMilli =>
      refine ⟨.tsMilliCol (List.replicate objs.length none), ?_, ?_, ?_⟩
      · simp only [build_column, buildCells]
        rw [mapME_null_cells tsMilliCell rfl name objs hnone]
        rfl
      · simp [ColumnData.isAllNull, replicate_none_all_isNone]
      · simp [ColumnData.length]
    | date32 =>
      refine ⟨.date32Col (List.replicate objs.length none), ?_, ?_, ?_⟩
      · simp only [build_column, buildCells]
        rw [mapME_null_cells date32Cell rfl name objs hnone]
        rfl
      · simp [ColumnData.isAllNull, replicate_none_all_isNone]
      · simp [ColumnData.length]

/-- Witness for C9: a one-row source whose row lacks the requested field. -/
theorem c9_json_value_object_get_witness :
    JsonValueObject.get ⟨[.obj [("a", .num 1)]]⟩ 0 "missing" = .ok .null ∧
      (build_column [.obj [("a", .num 1)]] .int64 (.member "missing")).map
        (fun col => (col.isAllNull, col.length)) = .ok (true, 1) := by
  constructor
  · exact c9_json_value_object_get.1 ⟨[.obj [("a", .num 1)]]⟩ 0 [("a", .num 1)] "missing"
      rfl rfl
  · obtain ⟨col, hcol, hnull, hlen⟩ := c9_json_value_object_get.2.2.2.2 .int64 "missing"
      [[("a", .num 1)]] rfl (by simp)
    rw [show ([.obj [("a", .num 1)]] : List JValue) =
      ([[("a", .num 1)]] : List (List (String × JValue))).map JValue.obj from rfl, hcol]
    simp [hnull, hlen, Functor.map, Except.map]

/-! ## C10 -/

/-- C10 counterexample: the claim quantifies over **any** supported-type
schema/member-fields pair, which includes the empty ones — but with an empty
schema `transform_response` builds zero columns and Arrow's
`RecordBatch::try_new` rejects a batch without columns, so the empty row
source does not succeed there. -/
theorem c10_counterexample :
    transform_response [] [] [] =
      .error (.user "at least one column must be defined to create a record batch") := by
  rfl

/-- With no rows, every `build_column!` cell loop is empty, so the cells
always build successfully — even for a kind-mismatched literal. -/
theorem buildCells_nil {t : Type} (mf : MemberField)
    (coerce : FieldValue → Except ScanError (Option t))
    (fromScalar : ScalarValue → Option (Option t)) (dtName : String) :
    buildCells ([] : List JValue) mf coerce fromScalar dtName = .ok [] := by
  cases mf with
  | member n => rfl
  | literal v => cases hv : fromScalar v <;> simp [buildCells, hv]

/-- With no rows, `build_column` succeeds for every supported type and every
member field, producing an empty column of the requested type. -/
theorem build_column_nil (dt : DataType) (mf : MemberField)
    (hsup : dt.isSupported = true) :
    ∃ col, build_column ([] : List JValue) dt mf = .ok col ∧ col.length = 0 ∧
      col.dataType = dt := by
  cases dt with
  | other nm => simp [DataType.isSupported] at hsup
  | utf8 => exact ⟨.utf8Col [], by simp [build_column, buildCells_nil], rfl, rfl⟩
  | int32 => exact ⟨.int32Col [], by simp [build_column, buildCells_nil], rfl, rfl⟩
  | int64 => exact ⟨.int64Col [], by simp [build_column, buildCells_nil], rfl, rfl⟩
  | float64 => exact ⟨.float64Col [], by simp [build_column, buildCells_nil], rfl, rfl⟩
  | boolean => exact ⟨.booleanCol [], by simp [build_column, buildCells_nil], rfl, rfl⟩
  | tsNano => exact ⟨.tsNanoCol [], by simp [build_column, buildCells_nil], rfl, rfl⟩
  | tsMilli => exact ⟨.tsMilliCol [], by simp [build_column, buildCells_nil], rfl, rfl⟩
  | date32 => exact ⟨.date32Col [], by simp [build_column, buildCells_nil], rfl, rfl⟩

/-- With no rows, the whole column loop succeeds under supported types and a
matching arity. -/
theorem buildColumns_nil :
    ∀ (schema : List SchemaField) (mfs : List MemberField),
      (∀ f ∈ schema, f.dataType.isSupported = true) → mfs.length = schema.length →
      ∃ cols, buildColumns [] schema mfs = .ok cols ∧
        cols.map ColumnData.dataType = schema.map SchemaField.dataType ∧
        ∀ c ∈ cols, c.length = 0 := by
  intro schema
  induction schema with
  | nil =>
    intro mfs _ _
    exact ⟨[], rfl, rfl, by simp⟩
  | cons f fs ih =>
    intro mfs hsup hlen
    cases mfs with
    | nil => simp at hlen
    | cons mf mfs =>
      obtain ⟨col, hcol, hcollen, hcoldt⟩ :=
        build_column_nil f.dataType mf (hsup f (List.mem_cons_self f fs))
      obtain ⟨cols, hcols, hdts, hzero⟩ := ih mfs
        (fun x hx => hsup x (List.mem_cons_of_mem f hx)) (by simpa using hlen)
      refine ⟨col :: cols, ?_, ?_, ?_⟩
      · simp [buildColumns, hcol, hcols, Bind.bind, Except.bind]
      · simp [hcoldt, hdts]
      · intro c hc
        rcases List.mem_cons.mp hc with hc | hc
        · subst hc; exact hcollen
        · exact hzero c hc

/-- The per-index type check of `try_new` follows from the column-type map
equation. -/
theorem zip_types_all :
    ∀ (schema : List SchemaField) (cols : List ColumnData),
      cols.map ColumnData.dataType = schema.map SchemaField.dataType →
      ((schema.zip cols).all fun fc => fc.2.dataType == fc.1.dataType) = true := by
  intro schema
  induction schema with
  | nil => intro cols _; simp
  | cons f fs ih =>
    intro cols h
    cases cols with
    | nil => simp
    | cons c cs =>
      simp only [List.map_cons, List.cons.injEq] at h
      simp [List.zip_cons_cons, h.1, ih cs h.2]

/-- `RecordBatch::try_new` accepts a nonempty all-zero-length column list
whose types match the schema. -/
theorem tryNew_ok_of (schema : List SchemaField) (cols : List ColumnData)
    (hne : schema ≠ [])
    (hlen : cols.length = schema.length)
    (htypes : cols.map ColumnData.dataType = schema.map SchemaField.dataType)
    (hzero : ∀ c ∈ cols, c.length = 0) :
    RecordBatch.tryNew schema cols = .ok ⟨schema, cols⟩ := by
  have hcne : cols ≠ [] := by
    intro hnil
    subst hnil
    exact hne (List.eq_nil_of_length_eq_zero hlen.symm)
  unfold RecordBatch.tryNew
  rw [if_neg (by simp [List.isEmpty_iff, hcne])]
  rw [if_neg (by simp [hlen])]
  rw [if_neg (by simp [zip_types_all schema cols htypes])]
  rw [if_neg ?_]
  · intro hcond
    rw [List.all_eq_true] at hcond
    apply hcond
    intro c hc
    cases cols with
    | nil => simp at hcne
    | cons c0 cs =>
      simp only [List.headD_cons]
      have h0 : c.length = 0 := hzero c hc
      have h1 : c0.length = 0 := hzero c0 (List.mem_cons_self c0 cs)
      simp [h0, h1]

/-- C10 amended: with an empty row source and a schema of **at least one**
column, all of whose types are supported, `transform_response` succeeds with
a zero-row batch for any arity-matching member fields; a kind-mismatched
literal is fatal only when the row count is positive (it builds an empty
column over zero rows); and an unsupported target type is fatal even with
zero rows. -/
theorem c10_empty_rows_amended :
    (∀ (schema : List SchemaField) (mfs : List MemberField), schema ≠ [] →
      (∀ f ∈ schema, f.dataType.isSupported = true) → mfs.length = schema.length →
      ∃ batch, transform_response [] schema mfs = .ok batch ∧ batch.numRows = 0 ∧
        batch.schema = schema) ∧
      (∀ (dt : DataType) (value : ScalarValue), dt.isSupported = true →
        literalMatches dt value = false →
        (∃ col, build_column ([] : List JValue) dt (.literal value) = .ok col ∧
          col.length = 0 ∧ col.dataType = dt) ∧
        ∀ (rows : List JValue), rows ≠ [] →
          ∃ msg, build_column rows dt (.literal value) = .error (.user msg)) ∧
      (∀ (name nm : String) (mf : MemberField),
        transform_response [] [⟨name, .other nm⟩] [mf] =
          .error (.user
            ("Type " ++ nm ++ " is not supported in response transformation from Cube"))) := by
  refine ⟨?_, ?_, ?_⟩
  · intro schema mfs hne hsup hlen
    obtain ⟨cols, hcols, hdts, hzero⟩ := buildColumns_nil schema mfs hsup hlen
    have hcolslen : cols.length = schema.length := by
      have := congrArg List.length hdts
      simpa using this
    refine ⟨⟨schema, cols⟩, ?_, ?_, rfl⟩
    · unfold transform_response
      rw [hcols]
      simp only [Bind.bind, Except.bind]
      exact tryNew_ok_of schema cols hne hcolslen hdts hzero
    · unfold RecordBatch.numRows
      cases cols with
      | nil => rfl
      | cons c cs => exact hzero c (List.mem_cons_self c cs)
  · intro dt value hsup hmatch
    cases dt with
    | other nm => simp [DataType.isSupported] at hsup
    | utf8 =>
      cases hv : ScalarValue.asUtf8 value with
      | some c => simp [literalMatches, hv] at hmatch
      | none =>
        refine ⟨build_column_nil _ _ hsup, ?_⟩
        intro rows hrows
        have hlen : ¬ rows.length = 0 := by simp [List.length_eq_zero, hrows]
        exact ⟨"Unable to map value to Utf8", by simp [build_column, buildCells, hv, hlen]⟩
    | int32 =>
      cases hv : ScalarValue.asInt32 value with
      | some c => simp [literalMatches, hv] at hmatch
      | none =>
        refine ⟨build_column_nil _ _ hsup, ?_⟩
        intro rows hrows
        have hlen : ¬ rows.length = 0 := by simp [List.length_eq_zero, hrows]
        exact ⟨"Unable to map value to Int32", by simp [build_column, buildCells, hv, hlen]⟩
    | int64 =>
      cases hv : ScalarValue.asInt64 value with
      | some c => simp [literalMatches, hv] at hmatch
      | none =>
        refine ⟨build_column_nil _ _ hsup, ?_⟩
        intro rows hrows
        have hlen : ¬ rows.length = 0 := by simp [List.length_eq_zero, hrows]
        exact ⟨"Unable to map value to Int64", by simp [build_column, buildCells, hv, hlen]⟩
    | float64 =>
      cases hv : ScalarValue.asFloat64 value with
      | some c => simp [literalMatches, hv] at hmatch
      | none =>
        refine ⟨build_column_nil _ _ hsup, ?_⟩
        intro rows hrows
        have hlen : ¬ rows.length = 0 := by simp [List.length_eq_zero, hrows]
        exact ⟨"Unable to map value to Float64", by simp [build_column, buildCells, hv, hlen]⟩
    | boolean =>
      cases hv : ScalarValue.asBoolean value with
      | some c => simp [literalMatches, hv] at hmatch
      | none =>
        refine ⟨build_column_nil _ _ hsup, ?_⟩
        intro rows hrows
        have hlen : ¬ rows.length = 0 := by simp [List.length_eq_zero, hrows]
        exact ⟨"Unable to map value to Boolean", by simp [build_column, buildCells, hv, hlen]⟩
    | tsNano =>
      cases hv : ScalarValue.asTsNano value with
      | some c => simp [literalMatches, hv] at hmatch
      | none =>
        refine ⟨build_column_nil _ _ hsup, ?_⟩
        intro rows hrows
        have hlen : ¬ rows.length = 0 := by simp [List.length_eq_zero, hrows]
        exact ⟨"Unable to map value to Timestamp Nanosecond", by simp [build_column, buildCells, hv, hlen]⟩
    | tsMilli =>
      cases hv : ScalarValue.asTsMilli value with
      | some c => simp [literalMatches, hv] at hmatch
      | none =>
        refine ⟨build_column_nil _ _ hsup, ?_⟩
        intro rows hrows
        have hlen : ¬ rows.length = 0 := by simp [List.length_eq_zero, hrows]
        exact ⟨"Unable to map value to Timestamp Millisecond", by simp [build_column, buildCells, hv, hlen]⟩
    | date32 =>
      cases hv : ScalarValue.asDate32 value with
      | some c => simp [literalMatches, hv] at hmatch
      | none =>
        refine ⟨build_column_nil _ _ hsup, ?_⟩
        intro rows hrows
        have hlen : ¬ rows.length = 0 := by simp [List.length_eq_zero, hrows]
        exact ⟨"Unable to map value to Date32", by simp [build_column, buildCells, hv, hlen]⟩
  · intro name nm mf
    rfl

/-- Witness for C10 amended: a one-column Utf8 schema with a kind-mismatched
Int32 literal still materializes an empty batch over zero rows, while the
same literal over one row is fatal, and an unsupported type is fatal over
zero rows. -/
theorem c10_empty_rows_amended_witness :
    (transform_response [] [⟨"a", .utf8⟩] [.literal (.int32 (some 1))]).map
        (fun batch => (batch.numRows, batch.schema)) = .ok (0, [⟨"a", .utf8⟩]) ∧
      (build_column [.obj []] .utf8 (.literal (.int32 (some 1)))).isOk = false ∧
      transform_response [] [⟨"a", .other "List"⟩] [.member "a"] =
        .error (.user "Type List is not supported in response transformation from Cube") := by
  refine ⟨?_, ?_, ?_⟩
  · obtain ⟨batch, hb, hn, hs⟩ := c10_empty_rows_amended.1 [⟨"a", .utf8⟩]
      [.literal (.int32 (some 1))] (by simp) (by decide) (by decide)
    rw [hb]
    simp [hn, hs, Functor.map, Except.map]
  · obtain ⟨msg, hmsg⟩ := (c10_empty_rows_amended.2.1 .utf8 (.int32 (some 1)) (by decide)
      (by decide)).2 [.obj []] (by simp)
    rw [hmsg]
    rfl
  · exact c10_empty_rows_amended.2.2 "a" "List" (.member "a")
